import Mathlib

/-!
Verification of the signal-bot client core: connection lifecycle,
health monitoring, inbound-event decoding and the conversation cache.
The definitions below embed the JavaScript sources
(src/client/Client.js, src/structures/UserConversation.js,
src/structures/MessageV2.js) as executable Lean functions.
-/

namespace SignalBot

/-- Conversation variant tag: Direct (user) or Group. -/
inductive ConvVariant where
  | direct
  | group
deriving DecidableEq, Repr

/-- Conversation handle. The `nonce` field models JavaScript object
identity: each object allocation receives a fresh nonce, so two handles
are the same runtime object exactly when they are equal as structures. -/
structure Conversation where
  id : String
  variant : ConvVariant
  nonce : Nat
deriving DecidableEq, Repr

/-- Shallow model of the JavaScript values the client passes around.
`bigInt` models the wide integers returned by the D-Bus library,
`convRef` a reference to a Conversation object, `objRef` an arbitrary
other object reference (for example the client itself). -/
inductive JSValue where
  | num (n : Int)
  | str (s : String)
  | bool (b : Bool)
  | null
  | undefined
  | bigInt (n : Int)
  | arr (elems : List JSValue)
  | convRef (c : Conversation)
  | objRef (tag : Nat)

/-- JavaScript truthiness: the falsy values among the modelled ones. -/
def jsFalsy : JSValue → Bool
  | .num n => n = 0
  | .str s => s = ""
  | .bool b => !b
  | .null => true
  | .undefined => true
  | .bigInt n => n = 0
  | _ => false

/-- Models `typeof v === "number"`. -/
def isNumber : JSValue → Bool
  | .num _ => true
  | _ => false

/-- Models `typeof v === "string"`. -/
def isString : JSValue → Bool
  | .str _ => true
  | _ => false

/-- True exactly for the undefined value (an absent field). -/
def isUndefined : JSValue → Bool
  | .undefined => true
  | _ => false

/-- Models the loose `v == null` check, true for null and undefined. -/
def isNullish : JSValue → Bool
  | .null => true
  | .undefined => true
  | _ => false

/-- Models `typeof v === "string" && v.startsWith("+")`: for the
one-character pattern this is exactly a first-character test. -/
def startsWithPlus : JSValue → Bool
  | .str s =>
    match s.toList with
    | [] => false
    | c :: _ => c = '+'
  | _ => false

/-- String conversion used by template interpolation, for the modelled values. -/
def jsDisplay : JSValue → String
  | .num n => toString n
  | .str s => s
  | .bool b => if b then ("true") else ("false")
  | .null => ("null")
  | .undefined => ("undefined")
  | .bigInt n => toString n
  | .arr es => String.intercalate (",") (es.map fun _ => ("?"))
  | .convRef _ => ("[object Object]")
  | .objRef _ => ("[object Object]")

/-- Does `pat` match at the head of `s`? Helper for substring search. -/
def subLead : List Char → List Char → Bool
  | [], _ => true
  | _ :: _, [] => false
  | p :: ps, c :: cs => (p = c) && subLead ps cs

/-- Does `pat` occur anywhere inside `s`? Helper for substring search. -/
def subAnywhere (pat : List Char) : List Char → Bool
  | [] => pat.isEmpty
  | c :: cs => subLead pat (c :: cs) || subAnywhere pat cs

/-- Models `s.includes(pat)` on JavaScript strings: substring containment. -/
def jsIncludes (s pat : String) : Bool := subAnywhere pat.toList s.toList

/-- The base64 alphabet, as used by `Buffer.toString("base64")`. -/
def base64Alphabet : List Char :=
  ("ABCDEFGHIJKLMNOPQRSTUVWXYZabcdefghijklmnopqrstuvwxyz0123456789+/").toList

/-- Character at a 6-bit index of the base64 alphabet. -/
def base64Char (n : Nat) : Char := base64Alphabet.getD n ('A')

/-- Base64 encoding of a byte list, three bytes per 4-character group,
padded with `=` as in RFC 4648 (the encoding `Buffer.toString("base64")`
produces). -/
def base64EncodeChars : List Nat → List Char
  | [] => []
  | [b1] =>
    let x1 := b1 % 256
    [base64Char (x1 / 4), base64Char (x1 % 4 * 16), '=', '=']
  | [b1, b2] =>
    let x1 := b1 % 256
    let x2 := b2 % 256
    [base64Char (x1 / 4), base64Char (x1 % 4 * 16 + x2 / 16),
     base64Char (x2 % 16 * 4), '=']
  | b1 :: b2 :: b3 :: rest =>
    let x1 := b1 % 256
    let x2 := b2 % 256
    let x3 := b3 % 256
    base64Char (x1 / 4) :: base64Char (x1 % 4 * 16 + x2 / 16) ::
      base64Char (x2 % 16 * 4 + x3 / 64) :: base64Char (x3 % 64) ::
      base64EncodeChars rest

/-- Models `groupID.toString("base64")` on a Buffer of bytes. -/
def base64Encode (bytes : List Nat) : String := String.mk (base64EncodeChars bytes)

/-- Models `Number(b)` applied to a BigInt: exact for magnitudes up to
2^53, rounded to the nearest representable double (ties to even) beyond
that. -/
def jsNumberOfBigInt (n : Int) : Int :=
  if n.natAbs ≤ 2 ^ 53 then n
  else
    let s := n.natAbs
    let e := s.log2 - 52
    let q := s / 2 ^ e
    let r := s % 2 ^ e
    let half := 2 ^ e / 2
    let q2 := if half < r || (r = half && q % 2 = 1) then q + 1 else q
    n.sign * (q2 * 2 ^ e)

/-! ## Conversation cache

Embeds the get-or-create pattern of the inbound-event handlers in
src/client/Client.js (cache lookup, `conversations.from`, `_addToCache`). -/

/-- State of the conversation registry: entries keyed by conversation
identifier, plus a counter supplying fresh identity nonces for newly
allocated Conversation objects. -/
structure CacheState where
  entries : List (String × Conversation)
  nextNonce : Nat
deriving DecidableEq, Repr

/-- Models `this.conversations.cache.get(conversationID)`. -/
def cacheGet (st : CacheState) (id : String) : Option Conversation :=
  st.entries.lookup id

/-- Modelled from the spec: `ConversationManager.from` is in a file not
under src. Per §4.3 the decoder constructs a new Conversation with the
resolved identifier, Group variant when group bytes are present and
Direct variant otherwise; allocation consumes a fresh identity nonce. -/
def conversationFrom (st : CacheState) (id : String) (isGroup : Bool) :
    Conversation × CacheState :=
  (⟨id, if isGroup then ConvVariant.group else ConvVariant.direct, st.nextNonce⟩,
   { st with nextNonce := st.nextNonce + 1 })

/-- Modelled from the spec: `ConversationManager._addToCache` is in a file
not under src. Per §2 and §4.4 the registry is keyed by the conversation
identifier. -/
def addToCache (st : CacheState) (c : Conversation) : CacheState :=
  { st with entries := (c.id, c) :: st.entries }

/-- The get-or-create path of the inbound handlers (Client.js lines
139–143 and 169–173): look the identifier up in the cache; on a miss,
create via `conversationFrom` and insert via `addToCache`. -/
def getOrCreateConversation (st : CacheState) (id : String) (isGroup : Bool) :
    Conversation × CacheState :=
  match cacheGet st id with
  | some c => (c, st)
  | none =>
    let created := conversationFrom st id isGroup
    (created.1, addToCache created.2 created.1)

/-- Number of cache entries carrying a given identifier key. -/
def keyCount (id : String) (es : List (String × Conversation)) : Nat :=
  es.countP (fun e => id == e.1)

/-! ## Message structures -/

/-- Embeds the MessageV2 structure (src/structures/MessageV2.js): fields
as stored by the constructor. -/
structure MessageV2 where
  _client : JSValue
  _timestamp : JSValue
  _sender : JSValue
  _extras : JSValue
  _conversation : JSValue
  _message : JSValue

/-- The MessageV2 constructor: stores client, timestamp, sender and
conversation verbatim; `extras` falls back to the empty list and
`message` to the empty string when the supplied value is falsy
(`data.extras || []`, `data.message || ""`). -/
def MessageV2.create (client timestamp sender conversation extras message : JSValue) :
    MessageV2 :=
  { _client := client
    _timestamp := timestamp
    _sender := sender
    _extras := if jsFalsy extras then JSValue.arr [] else extras
    _conversation := conversation
    _message := if jsFalsy message then JSValue.str ("") else message }

/-- Getter `client`. -/
def MessageV2.client (m : MessageV2) : JSValue := m._client

/-- Getter `timestamp`. -/
def MessageV2.timestamp (m : MessageV2) : JSValue := m._timestamp

/-- Getter `sender`. -/
def MessageV2.sender (m : MessageV2) : JSValue := m._sender

/-- Getter `conversation`. -/
def MessageV2.conversation (m : MessageV2) : JSValue := m._conversation

/-- Getter `extras`. -/
def MessageV2.extras (m : MessageV2) : JSValue := m._extras

/-- Getter `message`. -/
def MessageV2.message (m : MessageV2) : JSValue := m._message

/-- Modelled from the spec: the legacy Message structure
(src/structures/Message.js) is in a file not under src. Per §3 and §4.3
it stores timestamp, author identifier, conversation reference, content
and an attachments list, with absent content degrading to the empty
string and absent attachments to the empty list. -/
structure LegacyMessage where
  _client : JSValue
  _timestamp : JSValue
  _authorID : JSValue
  _conversation : JSValue
  _attachments : JSValue
  _content : JSValue

/-- Modelled from the spec: constructor of the legacy Message variant,
mirroring the MessageV2 constructor defaults described in §4.3. -/
def LegacyMessage.create (client timestamp authorID conversation attachments content : JSValue) :
    LegacyMessage :=
  { _client := client
    _timestamp := timestamp
    _authorID := authorID
    _conversation := conversation
    _attachments := if jsFalsy attachments then JSValue.arr [] else attachments
    _content := if jsFalsy content then JSValue.str ("") else content }

/-- Getter `timestamp` of the legacy Message. -/
def LegacyMessage.timestamp (m : LegacyMessage) : JSValue := m._timestamp

/-- Getter `conversation` of the legacy Message. -/
def LegacyMessage.conversation (m : LegacyMessage) : JSValue := m._conversation

/-! ## Inbound-event handlers (Message Decoder) -/

/-- The conversation-identifier resolution shared by both inbound
handlers (Client.js lines 137 and 168): base64 of the group bytes when
the buffer is non-empty (`groupID.length ?`), otherwise the sender or
author identifier. -/
def resolveConversationID (groupID : List Nat) (sender : String) : String :=
  if groupID.length ≠ 0 then base64Encode groupID else sender

/-- The MessageReceivedV2 handler (Client.js lines 136–156): resolves the
conversation identifier (base64 of the group bytes when non-empty, else
the sender), runs get-or-create on the cache, and builds the MessageV2
with the timestamp narrowed via `Number(timestamp)`. -/
def handleMessageReceivedV2 (st : CacheState) (timestamp : Int) (sender : String)
    (groupID : List Nat) (message extras : JSValue) : MessageV2 × CacheState :=
  let conversationID := resolveConversationID groupID sender
  let resolved := getOrCreateConversation st conversationID (groupID.length ≠ 0)
  (MessageV2.create (JSValue.objRef 0) (JSValue.num (jsNumberOfBigInt timestamp))
      (JSValue.str sender) (JSValue.convRef resolved.1) extras message,
   resolved.2)

/-- The MessageReceived handler (Client.js lines 164–185): same
resolution on author identifier and group bytes, building the legacy
Message with the timestamp narrowed via `Number(timestamp)`. -/
def handleMessageReceived (st : CacheState) (timestamp : Int) (authorID : String)
    (groupID : List Nat) (content attachments : JSValue) : LegacyMessage × CacheState :=
  let conversationID := resolveConversationID groupID authorID
  let resolved := getOrCreateConversation st conversationID (groupID.length ≠ 0)
  (LegacyMessage.create (JSValue.objRef 0) (JSValue.num (jsNumberOfBigInt timestamp))
      (JSValue.str authorID) (JSValue.convRef resolved.1) attachments content,
   resolved.2)

/-- Conversation identifier of a message whose conversation field holds a
Conversation reference. -/
def convIdOf : JSValue → Option String
  | .convRef c => some c.id
  | _ => none

/-- Conversation variant of a message whose conversation field holds a
Conversation reference. -/
def convVariantOf : JSValue → Option ConvVariant
  | .convRef c => some c.variant
  | _ => none

/-! ## Connection Health Monitor

Embeds the interval callback installed by `Client.connect`
(Client.js lines 94–112). -/

/-- Outcome of one `getRegistrationStatus` liveness probe: success, or a
rejection whose `e.reply?.body[0]` is the given optional string. -/
inductive ProbeResult where
  | success
  | failure (body : Option String)

/-- Observable actions of one monitor tick: the probe call, the two debug
logs, and the four teardown steps of the disconnect branch. -/
inductive MonitorAction where
  | probeCall
  | logIgnore
  | logDisconnect
  | stopTimer
  | closeTransport
  | detachListeners
  | emitDisconnect
deriving DecidableEq, Repr

/-- The benign-failure allowlist test of Client.js line 98:
`e.reply?.body[0]?.includes(...)`; an absent body is falsy and therefore
not benign. -/
def benignBody : Option String → Bool
  | some s =>
    jsIncludes s
      ("org.whispersystems.signalservice.internal.contacts.crypto.UnauthenticatedQuoteException")
  | none => false

/-- One tick of the connection-check interval: when the timer is still
armed, probe the daemon; a benign failure is only (optionally) logged,
any other failure clears the interval, disconnects the bus, removes the
listeners and emits `disconnect`. Returns the new timer state and the
actions taken. -/
def monitorTick (debug : Bool) (timerActive : Bool) (r : ProbeResult) :
    Bool × List MonitorAction :=
  if timerActive then
    match r with
    | .success => (true, [MonitorAction.probeCall])
    | .failure body =>
      if benignBody body then
        (true, MonitorAction.probeCall :: (if debug then [MonitorAction.logIgnore] else []))
      else
        (false,
         MonitorAction.probeCall ::
           ((if debug then [MonitorAction.logDisconnect] else []) ++
            [MonitorAction.stopTimer, MonitorAction.closeTransport,
             MonitorAction.detachListeners, MonitorAction.emitDisconnect]))
  else (false, [])

/-- Run a sequence of scheduled ticks from a given timer state,
collecting all actions. -/
def runProbes (debug : Bool) : Bool → List ProbeResult → Bool × List MonitorAction
  | timerActive, [] => (timerActive, [])
  | timerActive, r :: rs =>
    let step := monitorTick debug timerActive r
    let rest := runProbes debug step.1 rs
    (rest.1, step.2 ++ rest.2)

/-- Recognizer for the `disconnect` emission among the monitor actions. -/
def isEmitDisconnect : MonitorAction → Bool
  | .emitDisconnect => true
  | _ => false

/-- Number of `disconnect` events among a list of monitor actions. -/
def countDisconnects (as : List MonitorAction) : Nat :=
  as.countP isEmitDisconnect

/-- The teardown steps among the monitor actions. -/
def isTeardownAction : MonitorAction → Bool
  | .stopTimer => true
  | .closeTransport => true
  | .detachListeners => true
  | .emitDisconnect => true
  | _ => false

/-! ## Client settings validation and connect

Embeds the constructor checks (Client.js lines 27–49) and the transport
calls issued by `connect` (lines 73–94). -/

/-- The merged client settings: one JavaScript value per configuration
field (`undefined` when absent). -/
structure ClientSettings where
  connectionCheckInterval : JSValue
  destination : JSValue
  dbusType : JSValue
  phoneNumber : JSValue
  debug : JSValue

/-- Modelled from the spec: `deepMerge` and `defaultClientSettings` are
in files not under src. Per the configuration surface (§6) and the
constructor doc comments, a user-supplied value takes precedence and an
absent D-Bus field falls back to interval 5000, destination
org.asamk.Signal and type system; the account identifier has no default. -/
def mergeDefaults (s : ClientSettings) : ClientSettings :=
  { connectionCheckInterval :=
      if isUndefined s.connectionCheckInterval then JSValue.num 5000
      else s.connectionCheckInterval
    destination :=
      if isUndefined s.destination then JSValue.str ("org.asamk.Signal")
      else s.destination
    dbusType :=
      if isUndefined s.dbusType then JSValue.str ("system") else s.dbusType
    phoneNumber := s.phoneNumber
    debug := if isUndefined s.debug then JSValue.bool false else s.debug }

/-- The configuration failures the constructor can raise, in source
order. -/
inductive ConfigError where
  | badInterval
  | badDestination
  | badType
  | missingPhoneNumber
  | plusPhoneNumber
deriving DecidableEq, Repr

/-- Models `["system", "session"].includes(v)`. -/
def isRecognizedType : JSValue → Bool
  | .str s => s = "system" || s = "session"
  | _ => false

/-- Positive-number test on a JavaScript value, as the specification
phrases the interval requirement. -/
def isPositiveNumber : JSValue → Bool
  | .num n => 0 < n
  | _ => false

/-- Models `v === "session"` for the bus selection in `connect`. -/
def isSessionType : JSValue → Bool
  | .str s => s = "session"
  | _ => false

/-- The constructor validation (Client.js lines 30–44) on merged
settings: interval must be a number, destination a string, type one of
system and session, the phone number present and, when a string, free of
a leading plus. -/
def validateSettings (m : ClientSettings) : Except ConfigError Unit :=
  if !isNumber m.connectionCheckInterval then Except.error ConfigError.badInterval
  else if !isString m.destination then Except.error ConfigError.badDestination
  else if !isRecognizedType m.dbusType then Except.error ConfigError.badType
  else if isNullish m.phoneNumber then Except.error ConfigError.missingPhoneNumber
  else if startsWithPlus m.phoneNumber then Except.error ConfigError.plusPhoneNumber
  else Except.ok ()

/-- Transport-level calls issued by a successful `connect`. -/
inductive TransportCall where
  | openSessionBus
  | openSystemBus
  | getProxyObject (destination : String) (path : String)
  | getInterface (name : String)
  | startHealthTimer (interval : JSValue)

/-- Construction plus `connect` as one operation on raw settings: the
constructor merges and validates; only when validation passes does
`connect` open the bus for the selected scope, resolve the proxy object
at the account-derived path, bind the interface and start the
health-check timer. An error yields no transport call. -/
def clientConnect (s : ClientSettings) : Except ConfigError (List TransportCall) :=
  let m := mergeDefaults s
  match validateSettings m with
  | .error e => Except.error e
  | .ok _ =>
    Except.ok
      [if isSessionType m.dbusType then TransportCall.openSessionBus
       else TransportCall.openSystemBus,
       TransportCall.getProxyObject (jsDisplay m.destination)
         (("/org/asamk/Signal/_") ++ jsDisplay m.phoneNumber),
       TransportCall.getInterface ("org.asamk.Signal"),
       TransportCall.startHealthTimer m.connectionCheckInterval]

/-! ## Conversation send operations

Embeds src/structures/UserConversation.js. -/

/-- A call on the daemon bus interface, with the arguments as the code
passes them: `sendMessage` and `sendEndSessionMessage` take a recipients
list, `sendTyping` takes a single recipient string. -/
inductive BusCall where
  | sendMessage (content : String) (attachments : List String) (recipients : List String)
  | sendTyping (recipient : String) (stop : Bool)
  | sendEndSessionMessage (recipients : List String)
  | getRegistrationStatus

/-- The recipient-addressing argument of a bus call, viewed as the
JavaScript value the daemon interface receives. -/
def recipientArg : BusCall → JSValue
  | .sendMessage _ _ rs => JSValue.arr (rs.map JSValue.str)
  | .sendTyping r _ => JSValue.str r
  | .sendEndSessionMessage rs => JSValue.arr (rs.map JSValue.str)
  | .getRegistrationStatus => JSValue.undefined

/-- `UserConversation.sendMessage(content, attachments)`: wraps the
conversation identifier in a one-element list, issues the single daemon
call, and returns `Number(timestamp)` applied to the daemon reply
(a BigInt, modelled by `daemonReply`). -/
def UserConversation.sendMessage (conv : Conversation) (content : String)
    (attachments : List String) (daemonReply : Int) : List BusCall × JSValue :=
  ([BusCall.sendMessage content attachments [conv.id]],
   JSValue.num (jsNumberOfBigInt daemonReply))

/-- `UserConversation.sendTyping(stop)`: passes the conversation
identifier itself as the recipient argument. -/
def UserConversation.sendTyping (conv : Conversation) (stop : Bool) : List BusCall :=
  [BusCall.sendTyping conv.id stop]

/-- `UserConversation.resetSession()`: wraps the conversation identifier
in a one-element list for `sendEndSessionMessage`. -/
def UserConversation.resetSession (conv : Conversation) : List BusCall :=
  [BusCall.sendEndSessionMessage [conv.id]]

/-! ## Helper lemmas -/

/-- A cleared interval runs no further probes and takes no action. -/
theorem runProbes_stopped (debug : Bool) (rs : List ProbeResult) :
    runProbes debug false rs = (false, []) := by
  induction rs with
  | nil => rfl
  | cons r rs ih => simp [runProbes, monitorTick, ih]

/-- A key with zero occurrences among the entries is not found by lookup. -/
theorem lookup_none_of_keyCount_zero (id : String) (es : List (String × Conversation))
    (h : keyCount id es = 0) : es.lookup id = none := by
  induction es with
  | nil => rfl
  | cons e es ih =>
    unfold keyCount at h
    rw [List.countP_cons] at h
    by_cases hk : (id == e.1) = true
    · rw [if_pos hk] at h
      omega
    · rw [if_neg hk, Nat.add_zero] at h
      have hk2 : (id == e.1) = false := by simpa using hk
      obtain ⟨k, v⟩ := e
      simp only [List.lookup, hk2]
      exact ih h

/-! ## Claim theorems -/

/-- Claim C10: a MessageV2 built from a payload with falsy extras exposes
the empty list through its extras getter, a falsy message field yields
the empty string, and the client, timestamp, sender and conversation
fields are stored and returned unchanged. -/
theorem messageV2_constructor_defaults
    (client timestamp sender conversation extras message : JSValue) :
    (jsFalsy extras = true →
      (MessageV2.create client timestamp sender conversation extras message).extras =
        JSValue.arr []) ∧
    (jsFalsy message = true →
      (MessageV2.create client timestamp sender conversation extras message).message =
        JSValue.str ("")) ∧
    (MessageV2.create client timestamp sender conversation extras message).client = client ∧
    (MessageV2.create client timestamp sender conversation extras message).timestamp = timestamp ∧
    (MessageV2.create client timestamp sender conversation extras message).sender = sender ∧
    (MessageV2.create client timestamp sender conversation extras message).conversation =
      conversation := by
  refine ⟨?_, ?_, rfl, rfl, rfl, rfl⟩ <;> intro h <;>
    simp [MessageV2.create, MessageV2.extras, MessageV2.message, h]

/-- Closed instance of `messageV2_constructor_defaults` at a payload with
absent extras and null message. -/
theorem messageV2_constructor_defaults_witness :
    (MessageV2.create (JSValue.objRef 1) (JSValue.num 5) (JSValue.str ("a"))
        (JSValue.objRef 2) JSValue.undefined JSValue.null).extras = JSValue.arr [] ∧
    (MessageV2.create (JSValue.objRef 1) (JSValue.num 5) (JSValue.str ("a"))
        (JSValue.objRef 2) JSValue.undefined JSValue.null).message = JSValue.str ("") :=
  ⟨(messageV2_constructor_defaults (JSValue.objRef 1) (JSValue.num 5) (JSValue.str ("a"))
      (JSValue.objRef 2) JSValue.undefined JSValue.null).1 rfl,
   (messageV2_constructor_defaults (JSValue.objRef 1) (JSValue.num 5) (JSValue.str ("a"))
      (JSValue.objRef 2) JSValue.undefined JSValue.null).2.1 rfl⟩

/-- Claim C5 counterexample: `sendTyping` does not wrap the conversation
identifier in a one-element list; it passes the bare identifier string as
the recipient argument. -/
theorem sendTyping_recipient_not_wrapped :
    UserConversation.sendTyping ⟨("+15551234567"), ConvVariant.direct, 0⟩ false =
      [BusCall.sendTyping ("+15551234567") false] ∧
    recipientArg (BusCall.sendTyping ("+15551234567") false) ≠
      JSValue.arr [JSValue.str ("+15551234567")] :=
  ⟨rfl, fun h => JSValue.noConfusion h⟩

/-- Claim C5 (amended): `sendMessage` and `resetSession` forward to the
daemon interface with the conversation identifier wrapped in a
one-element recipients list, while `sendTyping` passes the identifier
directly as a string. -/
theorem sendOps_recipient_shapes (conv : Conversation) (content : String)
    (attachments : List String) (stop : Bool) (reply : Int) :
    (UserConversation.sendMessage conv content attachments reply).1 =
      [BusCall.sendMessage content attachments [conv.id]] ∧
    recipientArg (BusCall.sendMessage content attachments [conv.id]) =
      JSValue.arr [JSValue.str conv.id] ∧
    UserConversation.resetSession conv = [BusCall.sendEndSessionMessage [conv.id]] ∧
    recipientArg (BusCall.sendEndSessionMessage [conv.id]) =
      JSValue.arr [JSValue.str conv.id] ∧
    UserConversation.sendTyping conv stop = [BusCall.sendTyping conv.id stop] ∧
    recipientArg (BusCall.sendTyping conv.id stop) = JSValue.str conv.id :=
  ⟨rfl, rfl, rfl, rfl, rfl, rfl⟩

/-- Claim C7: `sendMessage` on a Direct conversation issues exactly the
single daemon call carrying the content, the attachments and the
one-element recipients list, and returns the daemon timestamp as a plain
number (exact, the reply being within the 64-bit-safe range). -/
theorem sendMessage_direct_single_call (conv : Conversation) (content : String)
    (attachments : List String) (reply : Int)
    (hdir : conv.variant = ConvVariant.direct)
    (hsafe : reply.natAbs ≤ 2 ^ 53) :
    UserConversation.sendMessage conv content attachments reply =
      ([BusCall.sendMessage content attachments [conv.id]], JSValue.num reply) := by
  simp [UserConversation.sendMessage, jsNumberOfBigInt, hsafe]
  exact fun hlt => absurd hsafe (by omega)

/-- Closed instance of `sendMessage_direct_single_call` on the Direct
conversation "+15551234567" with content "hello". -/
theorem sendMessage_direct_single_call_witness :
    UserConversation.sendMessage ⟨("+15551234567"), ConvVariant.direct, 0⟩ ("hello") []
        1700000000000 =
      ([BusCall.sendMessage ("hello") [] [("+15551234567")]], JSValue.num 1700000000000) :=
  sendMessage_direct_single_call ⟨("+15551234567"), ConvVariant.direct, 0⟩ ("hello") []
    1700000000000 rfl (by decide)

/-- Claim C6: on a non-benign health-check failure the teardown performs,
in this order, timer stop, transport close, listener detach and one
`disconnect` emission. -/
theorem teardown_step_order (debug : Bool) (body : Option String)
    (h : benignBody body = false) :
    ((monitorTick debug true (ProbeResult.failure body)).2).filter isTeardownAction =
      [MonitorAction.stopTimer, MonitorAction.closeTransport,
       MonitorAction.detachListeners, MonitorAction.emitDisconnect] := by
  cases debug <;> simp [monitorTick, h, isTeardownAction]

/-- Closed instance of `teardown_step_order` at a concrete failure body. -/
theorem teardown_step_order_witness :
    ((monitorTick true true (ProbeResult.failure (some ("remote failure")))).2).filter
        isTeardownAction =
      [MonitorAction.stopTimer, MonitorAction.closeTransport,
       MonitorAction.detachListeners, MonitorAction.emitDisconnect] :=
  teardown_step_order true (some ("remote failure")) (by decide)

/-- Claim C1: a probe failure whose body does not contain the
allowlisted UnauthenticatedQuoteException string emits exactly one
`disconnect` over the whole remaining schedule and leaves the timer
cleared, so no further probe runs; a failure matching the allowlist
emits no `disconnect` and leaves the timer armed. -/
theorem healthMonitor_failure_dichotomy (debug : Bool) (body : Option String)
    (rest : List ProbeResult) :
    (benignBody body = false →
      countDisconnects (runProbes debug true (ProbeResult.failure body :: rest)).2 = 1 ∧
      (runProbes debug true (ProbeResult.failure body :: rest)).1 = false ∧
      (monitorTick debug true (ProbeResult.failure body)).1 = false) ∧
    (benignBody body = true →
      countDisconnects (monitorTick debug true (ProbeResult.failure body)).2 = 0 ∧
      (monitorTick debug true (ProbeResult.failure body)).1 = true) := by
  constructor
  · intro h
    cases debug <;>
      simp [runProbes, monitorTick, h, runProbes_stopped, countDisconnects,
        List.countP_cons, isEmitDisconnect]
  · intro h
    cases debug <;>
      simp [monitorTick, h, countDisconnects, List.countP_cons, isEmitDisconnect]

/-- Closed instances of `healthMonitor_failure_dichotomy`: a concrete
non-benign failure followed by a further scheduled tick yields one
`disconnect` and a cleared timer; the allowlisted failure body yields
none and keeps the timer armed. -/
theorem healthMonitor_failure_dichotomy_witness :
    countDisconnects
        (runProbes false true
          (ProbeResult.failure (some ("transport closed")) :: [ProbeResult.success])).2 = 1 ∧
    countDisconnects
        (monitorTick false true
          (ProbeResult.failure
            (some ("org.whispersystems.signalservice.internal.contacts.crypto.UnauthenticatedQuoteException: x")))).2 = 0 :=
  ⟨((healthMonitor_failure_dichotomy false (some ("transport closed"))
      [ProbeResult.success]).1 (by decide)).1,
   ((healthMonitor_failure_dichotomy false
      (some ("org.whispersystems.signalservice.internal.contacts.crypto.UnauthenticatedQuoteException: x"))
      []).2 (by decide)).1⟩

/-- Claim C3: the get-or-create path of the conversation cache is
idempotent — a second call with the same identifier returns the same
instance and the same state — and, starting from a state with no entry
for the identifier, exactly one entry for it exists afterwards. -/
theorem cache_getOrCreate_idempotent (st : CacheState) (id : String) (g g2 : Bool) :
    getOrCreateConversation (getOrCreateConversation st id g).2 id g2 =
      getOrCreateConversation st id g ∧
    (keyCount id st.entries = 0 →
      keyCount id (getOrCreateConversation st id g).2.entries = 1 ∧
      keyCount id
          (getOrCreateConversation (getOrCreateConversation st id g).2 id g2).2.entries = 1) := by
  have hmain :
      getOrCreateConversation (getOrCreateConversation st id g).2 id g2 =
        getOrCreateConversation st id g := by
    cases h : cacheGet st id with
    | some c => simp [getOrCreateConversation, h]
    | none =>
      have h2 : List.lookup id st.entries = none := h
      simp [getOrCreateConversation, cacheGet, h2, conversationFrom, addToCache,
        List.lookup]
  refine ⟨hmain, fun h0 => ?_⟩
  have hnone : List.lookup id st.entries = none :=
    lookup_none_of_keyCount_zero id st.entries h0
  unfold keyCount at h0
  have h1 : keyCount id (getOrCreateConversation st id g).2.entries = 1 := by
    simp [getOrCreateConversation, cacheGet, hnone, conversationFrom, addToCache,
      keyCount, List.countP_cons, h0]
  exact ⟨h1, by rw [hmain]; exact h1⟩

/-- Closed instance of `cache_getOrCreate_idempotent` on the empty cache
and the identifier "abc". -/
theorem cache_getOrCreate_idempotent_witness :
    getOrCreateConversation (getOrCreateConversation ⟨[], 0⟩ ("abc") true).2 ("abc") true =
      getOrCreateConversation ⟨[], 0⟩ ("abc") true ∧
    keyCount ("abc") (getOrCreateConversation ⟨[], 0⟩ ("abc") true).2.entries = 1 :=
  ⟨(cache_getOrCreate_idempotent ⟨[], 0⟩ ("abc") true true).1,
   ((cache_getOrCreate_idempotent ⟨[], 0⟩ ("abc") true true).2 (by decide)).1⟩

/-- Claim C2: for both inbound handlers the conversation identifier
resolves to the base64 encoding of the group bytes when they are
non-empty and to the sender identifier when they are empty; the
conversation created on a cache miss carries the Group variant in the
first case and the Direct variant in the second. -/
theorem decoder_conversation_resolution (st : CacheState) (ts : Int) (sender : String)
    (groupID : List Nat) (msg extras content attachments : JSValue) :
    (groupID ≠ [] →
      resolveConversationID groupID sender = base64Encode groupID ∧
      (cacheGet st (base64Encode groupID) = none →
        convIdOf (handleMessageReceivedV2 st ts sender groupID msg extras).1.conversation =
          some (base64Encode groupID) ∧
        convVariantOf (handleMessageReceivedV2 st ts sender groupID msg extras).1.conversation =
          some ConvVariant.group ∧
        convIdOf (handleMessageReceived st ts sender groupID content attachments).1.conversation =
          some (base64Encode groupID) ∧
        convVariantOf
            (handleMessageReceived st ts sender groupID content attachments).1.conversation =
          some ConvVariant.group)) ∧
    (groupID = [] →
      resolveConversationID groupID sender = sender ∧
      (cacheGet st sender = none →
        convIdOf (handleMessageReceivedV2 st ts sender groupID msg extras).1.conversation =
          some sender ∧
        convVariantOf (handleMessageReceivedV2 st ts sender groupID msg extras).1.conversation =
          some ConvVariant.direct ∧
        convIdOf (handleMessageReceived st ts sender groupID content attachments).1.conversation =
          some sender ∧
        convVariantOf
            (handleMessageReceived st ts sender groupID content attachments).1.conversation =
          some ConvVariant.direct)) := by
  constructor
  · intro hne
    have hlen : groupID.length ≠ 0 := by
      simpa [List.length_eq_zero] using hne
    refine ⟨by simp [resolveConversationID, hlen], fun hmiss => ?_⟩
    simp [handleMessageReceivedV2, handleMessageReceived, resolveConversationID, hlen,
      getOrCreateConversation, hmiss, conversationFrom, addToCache,
      MessageV2.create, MessageV2.conversation, LegacyMessage.create,
      LegacyMessage.conversation, convIdOf, convVariantOf]
  · intro heq
    subst heq
    refine ⟨by simp [resolveConversationID], fun hmiss => ?_⟩
    simp [handleMessageReceivedV2, handleMessageReceived, resolveConversationID,
      getOrCreateConversation, hmiss, conversationFrom, addToCache,
      MessageV2.create, MessageV2.conversation, LegacyMessage.create,
      LegacyMessage.conversation, convIdOf, convVariantOf]

/-- Closed instance of `decoder_conversation_resolution`: group bytes
[1, 2, 3] resolve to their base64 encoding "AQID" with the Group
variant on the empty cache, and empty group bytes resolve to the sender
with the Direct variant. -/
theorem decoder_conversation_resolution_witness :
    resolveConversationID [1, 2, 3] ("+15551234567") = base64Encode [1, 2, 3] ∧
    base64Encode [1, 2, 3] = ("AQID") ∧
    convVariantOf
        (handleMessageReceivedV2 ⟨[], 0⟩ 7 ("+15551234567") [1, 2, 3]
          JSValue.null JSValue.null).1.conversation = some ConvVariant.group ∧
    resolveConversationID [] ("+15551234567") = ("+15551234567") ∧
    convVariantOf
        (handleMessageReceivedV2 ⟨[], 0⟩ 7 ("+15551234567") []
          JSValue.null JSValue.null).1.conversation = some ConvVariant.direct :=
  ⟨((decoder_conversation_resolution ⟨[], 0⟩ 7 ("+15551234567") [1, 2, 3]
      JSValue.null JSValue.null JSValue.null JSValue.null).1 (by decide)).1,
   by decide,
   (((decoder_conversation_resolution ⟨[], 0⟩ 7 ("+15551234567") [1, 2, 3]
      JSValue.null JSValue.null JSValue.null JSValue.null).1 (by decide)).2 (by decide)).2.1,
   ((decoder_conversation_resolution ⟨[], 0⟩ 7 ("+15551234567") []
      JSValue.null JSValue.null JSValue.null JSValue.null).2 rfl).1,
   (((decoder_conversation_resolution ⟨[], 0⟩ 7 ("+15551234567") []
      JSValue.null JSValue.null JSValue.null JSValue.null).2 rfl).2 (by decide)).2.1⟩

/-- Claim C8: both handlers store the payload timestamp as a plain
number obtained by the `Number(timestamp)` narrowing of the wide-integer
payload value, and the narrowing is exact on 64-bit-safe magnitudes. -/
theorem decoder_timestamp_narrowing (st : CacheState) (ts : Int) (sender : String)
    (groupID : List Nat) (msg extras content attachments : JSValue) :
    (handleMessageReceivedV2 st ts sender groupID msg extras).1.timestamp =
      JSValue.num (jsNumberOfBigInt ts) ∧
    (handleMessageReceived st ts sender groupID content attachments).1.timestamp =
      JSValue.num (jsNumberOfBigInt ts) ∧
    (ts.natAbs ≤ 2 ^ 53 → jsNumberOfBigInt ts = ts) := by
  refine ⟨rfl, rfl, fun h => ?_⟩
  simp [jsNumberOfBigInt, h]
  exact fun hlt => absurd h (by omega)

/-- Closed instance of `decoder_timestamp_narrowing` at the concrete
payload timestamp 1700000000123. -/
theorem decoder_timestamp_narrowing_witness :
    (handleMessageReceivedV2 ⟨[], 0⟩ 1700000000123 ("u") [] JSValue.null
        JSValue.null).1.timestamp = JSValue.num 1700000000123 ∧
    jsNumberOfBigInt 1700000000123 = 1700000000123 := by
  have h := decoder_timestamp_narrowing ⟨[], 0⟩ 1700000000123 ("u") [] JSValue.null
    JSValue.null JSValue.null JSValue.null
  have he : jsNumberOfBigInt 1700000000123 = 1700000000123 := h.2.2 (by decide)
  exact ⟨h.1.trans (by rw [he]), he⟩

/-- Claim C9: the leading-plus malformation check applies only to string
account identifiers — a non-null, non-string phone number never produces
the malformed-account-identifier error. -/
theorem phoneNumber_plus_check_strings_only (s : ClientSettings)
    (hnn : isNullish (mergeDefaults s).phoneNumber = false)
    (hns : isString (mergeDefaults s).phoneNumber = false) :
    clientConnect s ≠ Except.error ConfigError.plusPhoneNumber := by
  have hplus : startsWithPlus (mergeDefaults s).phoneNumber = false := by
    cases h : (mergeDefaults s).phoneNumber <;> simp [startsWithPlus] <;>
      simp [h, isString] at hns
  intro hcontra
  have hval : validateSettings (mergeDefaults s) = Except.error ConfigError.plusPhoneNumber := by
    cases hv : validateSettings (mergeDefaults s) with
    | error e =>
      simp [clientConnect, hv] at hcontra
      rw [hcontra]
    | ok u => simp [clientConnect, hv] at hcontra
  unfold validateSettings at hval
  rw [hplus] at hval
  by_cases h1 : isNumber (mergeDefaults s).connectionCheckInterval <;>
    by_cases h2 : isString (mergeDefaults s).destination <;>
    by_cases h3 : isRecognizedType (mergeDefaults s).dbusType <;>
    simp [h1, h2, h3, hnn] at hval

/-- Closed instance of `phoneNumber_plus_check_strings_only`: a numeric
phone number passes construction without the malformed-identifier
error. -/
theorem phoneNumber_plus_check_strings_only_witness :
    clientConnect ⟨JSValue.undefined, JSValue.undefined, JSValue.undefined,
        JSValue.num 15551234567, JSValue.undefined⟩ ≠
      Except.error ConfigError.plusPhoneNumber :=
  phoneNumber_plus_check_strings_only ⟨JSValue.undefined, JSValue.undefined,
    JSValue.undefined, JSValue.num 15551234567, JSValue.undefined⟩ (by decide) (by decide)

/-- Claim C4 counterexample: the interval check does not enforce
positivity. With `connectionCheckInterval = -1` — a number that is not
positive, so the claim demands a ConfigurationError — construction and
connect succeed and transport calls are issued. -/
theorem connect_negative_interval_accepted :
    isPositiveNumber
        (mergeDefaults ⟨JSValue.num (-1), JSValue.undefined, JSValue.undefined,
          JSValue.str ("15551234567"), JSValue.undefined⟩).connectionCheckInterval = false ∧
    isNumber
        (mergeDefaults ⟨JSValue.num (-1), JSValue.undefined, JSValue.undefined,
          JSValue.str ("15551234567"), JSValue.undefined⟩).connectionCheckInterval = true ∧
    (clientConnect ⟨JSValue.num (-1), JSValue.undefined, JSValue.undefined,
        JSValue.str ("15551234567"), JSValue.undefined⟩).isOk = true :=
  ⟨rfl, rfl, by rfl⟩

/-- Claim C4 (amended): construction plus connect fails with a
configuration error, issuing no transport call, if and only if the
merged health-check interval is not a number (positivity is not
checked), or the destination is not a string, or the scope is not one of
system and session, or the account identifier is nullish or is a string
with a leading plus. -/
theorem connect_validation_characterization (s : ClientSettings) :
    (clientConnect s).isOk = false ↔
      (isNumber (mergeDefaults s).connectionCheckInterval = false ∨
       isString (mergeDefaults s).destination = false ∨
       isRecognizedType (mergeDefaults s).dbusType = false ∨
       isNullish (mergeDefaults s).phoneNumber = true ∨
       startsWithPlus (mergeDefaults s).phoneNumber = true) := by
  by_cases h1 : isNumber (mergeDefaults s).connectionCheckInterval <;>
    by_cases h2 : isString (mergeDefaults s).destination <;>
    by_cases h3 : isRecognizedType (mergeDefaults s).dbusType <;>
    by_cases h4 : isNullish (mergeDefaults s).phoneNumber <;>
    by_cases h5 : startsWithPlus (mergeDefaults s).phoneNumber <;>
    simp [clientConnect, validateSettings, Except.isOk, Except.toBool, h1, h2, h3, h4, h5]

/-- Closed instance of `connect_validation_characterization`: the string
"5000" as the interval is rejected before any transport call. -/
theorem connect_validation_characterization_witness :
    (clientConnect ⟨JSValue.str ("5000"), JSValue.undefined, JSValue.undefined,
        JSValue.str ("15551234567"), JSValue.undefined⟩).isOk = false :=
  (connect_validation_characterization ⟨JSValue.str ("5000"), JSValue.undefined,
      JSValue.undefined, JSValue.str ("15551234567"), JSValue.undefined⟩).mpr
    (Or.inl rfl)

end SignalBot
